import Mathlib

/-!
Shallow embedding of the Things→Notion reconciliation engine (`main.py`).

Conventions of the embedding:
* Python `None`-or-string values become `Option String`; Python truthiness on
  such a value (`if x:`) is `truthyOpt` (`none` and `""` are falsy).
* `datetime` values become `PDateTime` (calendar date plus seconds into the
  day); only ordering and the date portion are used by the code, so timezone
  offsets accepted by `fromisoformat` are validated but do not shift the
  stored value, and fractional seconds are validated and dropped.
* `datetime.now()` is passed in explicitly: as `today : PDate` where the code
  calls `datetime.now().date()` / `strftime('%Y-%m-%d')`, as a threshold
  `PDateTime` where the code compares against `now - timedelta(days=7)`, and
  as an opaque ISO string where the code stores `datetime.now().isoformat()`.
* Remote I/O (the Notion client) is modelled by its observable effect: which
  calls a run would issue (create / update / none) and with what payload.
-/

/-- Python truthiness of an optional string: `None` and `""` are falsy. -/
def truthyOpt (o : Option String) : Bool :=
  match o with
  | none => false
  | some s => s != ""

/-- Calendar date (`datetime.date`): year, month, day. -/
structure PDate where
  year : Nat
  month : Nat
  day : Nat
deriving DecidableEq, Repr

/-- `datetime.date` ordering: lexicographic on (year, month, day). -/
def PDate.before (a b : PDate) : Bool :=
  a.year < b.year ∨ (a.year = b.year ∧ (a.month < b.month ∨ (a.month = b.month ∧ a.day < b.day)))

/-- Naive `datetime`: a date plus seconds into the day. -/
structure PDateTime where
  date : PDate
  secs : Nat
deriving DecidableEq, Repr

/-- `datetime` ordering (`>=` in the source): lexicographic on (date, secs). -/
def PDateTime.le (a b : PDateTime) : Bool :=
  a.date.before b.date ∨ (a.date = b.date ∧ a.secs ≤ b.secs)

/-- Split a character list at every occurrence of `c` (Python
`str.split(sep)` for a one-character separator, keeping empty pieces). -/
def splitChars (c : Char) : List Char → List (List Char)
  | [] => [[]]
  | x :: xs =>
    if x = c then [] :: splitChars c xs
    else
      match splitChars c xs with
      | [] => [[x]]
      | y :: ys => (x :: y) :: ys

/-- `s.split(sep)` for a one-character separator. -/
def strSplitOn (c : Char) (s : String) : List String :=
  (splitChars c s.data).map String.mk

/-- Replace every occurrence of the character `c` by the string `r`
(Python `s.replace(c, r)` for a one-character pattern). -/
def replaceChar (c : Char) (r : List Char) : List Char → List Char
  | [] => []
  | x :: xs => if x = c then r ++ replaceChar c r xs else x :: replaceChar c r xs

/-- `c in s` for a single character. -/
def containsChar (c : Char) (s : String) : Bool :=
  s.data.any (fun x => x == c)

/-- All characters are ASCII digits and the string is nonempty. -/
def allDigits (s : String) : Bool :=
  s != "" && s.data.all Char.isDigit

/-- Numeric value of a digit string (`int(...)` on a digit-only match). -/
def digitsToNat (s : String) : Nat :=
  s.data.foldl (fun n c => n * 10 + (c.toNat - 48)) 0

/-- Gregorian leap-year rule used by `datetime`'s calendar validation. -/
def isLeapYear (y : Nat) : Bool :=
  (y % 4 = 0 ∧ y % 100 ≠ 0) ∨ y % 400 = 0

/-- Days in a month, as validated by `datetime.strptime` / `fromisoformat`. -/
def daysInMonth (y m : Nat) : Nat :=
  if m = 2 then (if isLeapYear y then 29 else 28)
  else if m = 4 ∨ m = 6 ∨ m = 9 ∨ m = 11 then 30
  else 31

/-- A (year, month, day) triple that `datetime` accepts as a real date. -/
def validDate (y m d : Nat) : Bool :=
  1 ≤ m ∧ m ≤ 12 ∧ 1 ≤ d ∧ d ≤ daysInMonth y m

/-- `datetime.strptime(s, '%Y-%m-%d')`: four-digit year, one- or two-digit
month and day, and the triple must be a real calendar date; anything else
fails (and the caller turns the failure into `none`). -/
def parseYMD (s : String) : Option PDate :=
  match strSplitOn '-' s with
  | [ys, ms, ds] =>
    if allDigits ys ∧ ys.length = 4 ∧
       allDigits ms ∧ ms.length ≤ 2 ∧
       allDigits ds ∧ ds.length ≤ 2 then
      let y := digitsToNat ys
      let m := digitsToNat ms
      let d := digitsToNat ds
      if validDate y m d then some ⟨y, m, d⟩ else none
    else none
  | _ => none

/-- Time-of-day `HH[:MM[:SS[.ffffff]]]` in seconds; fractional seconds are
validated as digits and dropped (they never influence the date portion). -/
def parseHMS (s : String) : Option Nat :=
  match strSplitOn ':' s with
  | [hs] =>
    if allDigits hs ∧ hs.length = 2 ∧ digitsToNat hs < 24 then
      some (digitsToNat hs * 3600)
    else none
  | [hs, ms] =>
    if allDigits hs ∧ hs.length = 2 ∧ digitsToNat hs < 24 ∧
       allDigits ms ∧ ms.length = 2 ∧ digitsToNat ms < 60 then
      some (digitsToNat hs * 3600 + digitsToNat ms * 60)
    else none
  | [hs, ms, ss] =>
    let sec := (strSplitOn '.' ss).headD ""
    let fracOk :=
      match strSplitOn '.' ss with
      | [_] => true
      | [_, f] => allDigits f
      | _ => false
    if allDigits hs ∧ hs.length = 2 ∧ digitsToNat hs < 24 ∧
       allDigits ms ∧ ms.length = 2 ∧ digitsToNat ms < 60 ∧
       allDigits sec ∧ sec.length = 2 ∧ digitsToNat sec < 60 ∧ fracOk = true then
      some (digitsToNat hs * 3600 + digitsToNat ms * 60 + digitsToNat sec)
    else none
  | _ => none

/-- Split a `fromisoformat` time component into clock part and optional UTC
offset (`+HH:MM` / `-HH:MM`); the offset is validated but not applied. -/
def stripOffset (t : String) : Option (String × Option String) :=
  if containsChar '+' t then
    match strSplitOn '+' t with
    | [a, b] => some (a, some b)
    | _ => none
  else if containsChar '-' t then
    match strSplitOn '-' t with
    | [a, b] => some (a, some b)
    | _ => none
  else some (t, none)

/-- `datetime.fromisoformat` on a string containing `'T'` (after the source's
`replace('Z', '+00:00')`): date part, `'T'`, time part, optional offset. -/
def parseIsoDateTime (s : String) : Option PDateTime :=
  match strSplitOn 'T' s with
  | [d, t] =>
    match parseYMD d with
    | none => none
    | some pd =>
      match stripOffset t with
      | none => none
      | some (clock, off) =>
        match parseHMS clock with
        | none => none
        | some secs =>
          match off with
          | none => some ⟨pd, secs⟩
          | some o => if (parseHMS o).isSome then some ⟨pd, secs⟩ else none
  | _ => none

/-- `parse_things_date`: `None`/empty/sentinel `"None"` parse to `None`; a
string containing `'T'` goes through `fromisoformat` (with `Z` replaced by
`+00:00`), otherwise `strptime('%Y-%m-%d')`; any parse error yields `None`. -/
def parse_things_date (o : Option String) : Option PDateTime :=
  match o with
  | none => none
  | some s =>
    if s = "" ∨ s = "None" then none
    else if containsChar 'T' s then
      parseIsoDateTime (String.mk (replaceChar 'Z' "+00:00".data s.data))
    else
      (parseYMD s).map (fun d => ⟨d, 0⟩)

/-- First whitespace-separated token (`s.split()[0]`); the source would raise
on an all-whitespace string, which never occurs for a truthy date value. -/
def firstToken (s : String) : String :=
  String.mk ((s.data.dropWhile Char.isWhitespace).takeWhile (fun c => !c.isWhitespace))

/-- `extract_date_part`: falsy input gives `None`; otherwise the part before
`'T'`, else the first whitespace-separated token, else the string itself. -/
def extract_date_part (o : Option String) : Option String :=
  match o with
  | none => none
  | some s =>
    if s = "" then none
    else if containsChar 'T' s then some ((strSplitOn 'T' s).headD "")
    else if containsChar ' ' s then some (firstToken s)
    else some s

/-- Left-pad a numeral with zeros to the given width. -/
def padZeros (w n : Nat) : String :=
  let s := toString n
  String.mk (List.replicate (w - s.length) '0') ++ s

/-- `strftime('%Y-%m-%d')` on a date. -/
def formatYMD (d : PDate) : String :=
  padZeros 4 d.year ++ "-" ++ padZeros 2 d.month ++ "-" ++ padZeros 2 d.day

/-- A Things task record as consumed by the sync (`task.get(...)` fields are
optional; `task["title"]` / `task["uuid"]` are mandatory lookups). -/
structure ThingsTask where
  uuid : String
  title : String
  type : Option String
  status : Option String
  start_date : Option String
  deadline : Option String
  today_index : Option Int
  project : Option String
  project_title : Option String
  heading : Option String
  modification_date : Option String
deriving DecidableEq, Repr

/-- Entry of `build_heading_lookup`: project reference and project title of a
heading record. -/
structure HeadingInfo where
  project : Option String
  project_title : Option String
deriving DecidableEq, Repr

/-- `heading_lookup`: mapping from heading uuid to its project information. -/
abbrev HeadingLookup := List (String × HeadingInfo)

/-- `get_task_project`: the task's own project title when it references a
project directly, else the project title of its heading when that heading is
in the lookup, else `None`. -/
def get_task_project (task : ThingsTask) (hl : HeadingLookup) : Option String :=
  if truthyOpt task.project then task.project_title
  else
    match task.heading with
    | none => none
    | some h =>
      if h != "" then
        match List.find? (fun kv => kv.1 == h) hl with
        | some kv => kv.2.project_title
        | none => none
      else none

/-- The candidate date of `get_task_display_date`: the first of `start_date`,
`deadline` that is truthy and not the sentinel string `"None"`. -/
def task_candidate_date (task : ThingsTask) : Option String :=
  if truthyOpt task.start_date ∧ task.start_date ≠ some "None" then task.start_date
  else if truthyOpt task.deadline ∧ task.deadline ≠ some "None" then task.deadline
  else none

/-- `get_task_display_date`, with `datetime.now().date()` passed in as
`today`: no candidate gives `None`; completed tasks keep their candidate; an
incomplete task in the Today list whose candidate parses to a date strictly
before `today` is redated to `today` (formatted `%Y-%m-%d`); every other case
returns the candidate unchanged. -/
def get_task_display_date (today : PDate) (task : ThingsTask) : Option String :=
  match task_candidate_date task with
  | none => none
  | some actual =>
    if task.status = some "completed" then some actual
    else if task.today_index.isSome ∧ task.status = some "incomplete" then
      match parse_things_date (some actual) with
      | some dt => if dt.date.before today then some (formatYMD today) else some actual
      | none => some actual
    else some actual

/-- `things_status_to_notion_status`: fixed three-way mapping with
`"Incomplete"` as fallback. -/
def things_status_to_notion_status (s : Option String) : String :=
  if s = some "completed" then "Completed"
  else if s = some "canceled" then "Canceled"
  else if s = some "incomplete" then "Incomplete"
  else "Incomplete"

/-- `is_task_relevant`, with `now - timedelta(days=7)` passed in as
`threshold`: true iff `start_date` or `deadline` parses and the parsed value
is `>= threshold`. -/
def is_task_relevant (threshold : PDateTime) (task : ThingsTask) : Bool :=
  [task.start_date, task.deadline].any (fun f =>
    match parse_things_date f with
    | some dt => threshold.le dt
    | none => false)

/-- `project_id_map`: association list from Notion project name to page id
(dict iteration order = insertion order). -/
abbrev ProjectMap := List (String × String)

/-- Python `s.strip()`. -/
def stripStr (s : String) : String :=
  String.mk ((s.data.dropWhile Char.isWhitespace).reverse.dropWhile Char.isWhitespace).reverse

/-- Python `s.strip().lower()`, the normalization `get_or_create_project_id`
compares project names under. -/
def normProjectName (s : String) : String :=
  String.mk ((stripStr s).data.map Char.toLower)

/-- `get_or_create_project_id`, with the id a fresh creation would return
passed in as `newId`. Result: resolved id (or `none`), whether a remote
create call was issued, and the project map after the call. -/
def get_or_create_project_id (project_name : Option String) (m : ProjectMap)
    (newId : String) : Option String × Bool × ProjectMap :=
  match project_name with
  | none => (none, false, m)
  | some s =>
    if s = "" then (none, false, m)
    else
      match List.find? (fun kv => normProjectName s == normProjectName kv.1) m with
      | some kv => (some kv.2, false, m)
      | none => (some newId, true, m ++ [(stripStr s, newId)])

/-- The fields of a remote Notion task page that the reconciliation reads:
`Name.title[*].plain_text`, `Status.status.name`, `Projects.relation[*].id`,
`Date.date.start`. -/
structure NotionPage where
  id : String
  nameTitle : List String
  statusName : Option String
  relationIds : List String
  dateStart : Option String
deriving DecidableEq, Repr

/-- `properties_differ`: true iff title, mapped status, project relation or
date-portion (with the clear-date special case) differs between the task's
target values and the remote page. -/
def properties_differ (task : ThingsTask) (page : NotionPage)
    (project_id : Option String) (date_value : Option String) : Bool :=
  let notion_title := page.nameTitle.headD ""
  if task.title ≠ notion_title then true
  else if page.statusName ≠ some (things_status_to_notion_status task.status) then true
  else
    let notion_project_id := page.relationIds.head?
    if (truthyOpt project_id || truthyOpt notion_project_id) ∧ project_id ≠ notion_project_id then true
    else
      let things_date_part := extract_date_part date_value
      let notion_date_part := extract_date_part page.dateStart
      if things_date_part = none ∧ notion_date_part ≠ none then true
      else if (truthyOpt things_date_part || truthyOpt notion_date_part) ∧
              things_date_part ≠ notion_date_part then true
      else false

/-- The computed Notion property payload: `date = none` means the `Date` key
is absent, `date = some none` is the explicit clear (`{"date": None}`), and
`date = some (some s)` is `{"date": {"start": s}}`. -/
structure NotionTaskProps where
  name : String
  status : String
  things_uuid : String
  projects : Option String
  date : Option (Option String)
deriving DecidableEq, Repr

/-- Result of `task_properties_dict`: the payload, the resolved project id,
the normalized date value, whether a project create call was issued, and the
project map after resolution. -/
structure PropsResult where
  props : NotionTaskProps
  project_id : Option String
  date_value : Option String
  project_created : Bool
  new_map : ProjectMap

/-- `task_properties_dict`, with `datetime.now().date()` as `today` and the
fresh project id as `newId`: builds the payload; when updating an existing
page whose date has the same date-portion the `Date` key is omitted, when the
task has no normalized date the payload carries an explicit clear. -/
def task_properties_dict (today : PDate) (task : ThingsTask) (hl : HeadingLookup)
    (m : ProjectMap) (newId : String) (existing_page : Option NotionPage) : PropsResult :=
  let project_name := get_task_project task hl
  let pr := get_or_create_project_id project_name m newId
  let project_id := pr.1
  let date_value := get_task_display_date today task
  let dateProp : Option (Option String) :=
    if truthyOpt date_value then
      match existing_page with
      | some page =>
        if truthyOpt page.dateStart ∧
           extract_date_part date_value = extract_date_part page.dateStart then
          none
        else some date_value
      | none => some date_value
    else some none
  { props := { name := task.title,
               status := things_status_to_notion_status task.status,
               things_uuid := task.uuid,
               projects := if truthyOpt project_id then project_id else none,
               date := dateProp },
    project_id := project_id,
    date_value := date_value,
    project_created := pr.2.1,
    new_map := pr.2.2 }

/-- The remote call a reconciliation step issues for one task. -/
inductive SyncAction where
  | created
  | updated
  | skipped
deriving DecidableEq, Repr

/-- `add_or_update_task_to_notion`: create when there is no existing page;
update when `properties_differ`; otherwise skip with no remote call. -/
def add_or_update_task_to_notion (today : PDate) (task : ThingsTask)
    (hl : HeadingLookup) (m : ProjectMap) (newId : String)
    (existing_page : Option NotionPage) : SyncAction × PropsResult :=
  let r := task_properties_dict today task hl m newId existing_page
  match existing_page with
  | some page =>
    if properties_differ task page r.project_id r.date_value then
      (SyncAction.updated, r)
    else
      (SyncAction.skipped, r)
  | none => (SyncAction.created, r)

/-- Environment read by the sync gate: whether a Notion app is frontmost,
whether the last recorded sync was under 30 seconds ago, and whether the
Things database file changed since the last recorded sync. -/
structure GateEnv where
  notion_active : Bool
  recently_synced : Bool
  things_db_changed : Bool
deriving DecidableEq, Repr

/-- `should_sync_based_on_focus`: `force` short-circuits to true; otherwise
an inactive Notion app skips, then a sync under 30 seconds ago skips. -/
def should_sync_based_on_focus (force : Bool) (env : GateEnv) : Bool :=
  if force then true
  else if !env.notion_active then false
  else if env.recently_synced then false
  else true

/-- A `.sync_cache.json` entry for one task uuid. -/
structure CacheEntry where
  modification_date : Option String
  last_synced : String
deriving DecidableEq, Repr

/-- `cache["tasks"]`: association list from task uuid to cache entry. -/
abbrev CacheMap := List (String × CacheEntry)

/-- Dictionary lookup in the cache. -/
def cacheLookup (c : CacheMap) (u : String) : Option CacheEntry :=
  (List.find? (fun kv => kv.1 == u) c).map (fun kv => kv.2)

/-- The skip test of the cache filter: the uuid is present and the cached
`modification_date` equals the task's current one (`None == None` counts as
equal, as in Python). -/
def cache_skip (c : CacheMap) (t : ThingsTask) : Bool :=
  match cacheLookup c t.uuid with
  | some e => e.modification_date == t.modification_date
  | none => false

/-- Dictionary assignment `cache["tasks"][uuid] = entry`: replace in place if
the key exists, else append. -/
def cacheUpsert (c : CacheMap) (u : String) (e : CacheEntry) : CacheMap :=
  if c.any (fun kv => kv.1 == u) then
    c.map (fun kv => if kv.1 == u then (u, e) else kv)
  else c ++ [(u, e)]

/-- The cache-filter loop of `sync_things_to_notion`: skipped tasks leave the
cache untouched; selected tasks are appended to `tasks_to_sync` and their
cache entry is optimistically set to the current modification date (with
`datetime.now().isoformat()` passed in as `nowIso`). -/
def select_tasks_to_sync (nowIso : String) : List ThingsTask → CacheMap → List ThingsTask × CacheMap
  | [], c => ([], c)
  | t :: ts, c =>
    if cache_skip c t then select_tasks_to_sync nowIso ts c
    else
      let c1 := cacheUpsert c t.uuid ⟨t.modification_date, nowIso⟩
      let r := select_tasks_to_sync nowIso ts c1
      (t :: r.1, r.2)

/-- `get_things_todos`: keep only records whose `type` is `"to-do"`. -/
def get_things_todos (all_tasks : List ThingsTask) : List ThingsTask :=
  all_tasks.filter (fun t => t.type == some "to-do")

/-- The relevance filter of `get_filtered_things_tasks`, over an already
fetched task list. -/
def filter_relevant_tasks (threshold : PDateTime) (all_tasks : List ThingsTask) : List ThingsTask :=
  all_tasks.filter (fun t => is_task_relevant threshold t)

/-- The task-selection stage of `sync_things_to_notion`: gate checks (focus
gate, then Things-database-changed check unless forced), then the relevance
filter, the to-do filter, and the cache filter. `none` means the run returns
before selecting; `some l` means `l` is `tasks_to_sync`. -/
def sync_things_to_notion_selection (force : Bool) (env : GateEnv)
    (threshold : PDateTime) (nowIso : String) (all_tasks : List ThingsTask)
    (cache : CacheMap) : Option (List ThingsTask) :=
  if !should_sync_based_on_focus force env then none
  else if !force && !env.things_db_changed then none
  else
    let filtered := filter_relevant_tasks threshold all_tasks
    let todos := get_things_todos filtered
    some (select_tasks_to_sync nowIso todos cache).1

/-- The claim's date-equality rule between two extracted date-portions:
both absent is equal, both present compares the strings, mixed
presence is different. -/
def date_portion_matches (l r : Option String) : Bool :=
  match l, r with
  | none, none => true
  | some a, some b => a == b
  | _, _ => false

/-- Sample task for the idempotent-skip witness. -/
def w1task : ThingsTask :=
  { uuid := "u1", title := "Task A", type := some "to-do", status := some "incomplete",
    start_date := some "2025-06-10", deadline := none, today_index := none,
    project := none, project_title := none, heading := none, modification_date := some "m1" }

/-- Sample remote page matching `w1task` field-for-field. -/
def w1page : NotionPage :=
  { id := "p1", nameTitle := ["Task A"], statusName := some "Incomplete",
    relationIds := [], dateStart := some "2025-06-10T08:00:00.000+09:30" }

/-- Sample task for the date-suppression witness. -/
def w2task : ThingsTask :=
  { uuid := "u2", title := "Task B", type := some "to-do", status := some "completed",
    start_date := some "2025-07-18", deadline := none, today_index := none,
    project := none, project_title := none, heading := none, modification_date := some "m2" }

/-- Sample remote page whose date has the same date-portion as `w2task`. -/
def w2page : NotionPage :=
  { id := "p2", nameTitle := ["Task B"], statusName := some "Completed",
    relationIds := [], dateStart := some "2025-07-18 21:30:00" }

/-- Sample task with no dates, for the clear-date witness. -/
def w3task : ThingsTask :=
  { uuid := "u3", title := "Task C", type := some "to-do", status := some "incomplete",
    start_date := none, deadline := none, today_index := some 0,
    project := none, project_title := none, heading := none, modification_date := none }

/-- Sample overdue incomplete task in the Today list. -/
def w4task : ThingsTask :=
  { uuid := "u4", title := "Task D", type := some "to-do", status := some "incomplete",
    start_date := some "2025-06-04", deadline := none, today_index := some 0,
    project := none, project_title := none, heading := none, modification_date := none }

/-- Sample canceled task with a long-past date. -/
def w5task : ThingsTask :=
  { uuid := "u5", title := "Task E", type := some "to-do", status := some "canceled",
    start_date := some "2020-01-01", deadline := none, today_index := some 0,
    project := none, project_title := none, heading := none, modification_date := none }

/-- Sample task whose candidate date string is unparseable. -/
def w6task : ThingsTask :=
  { uuid := "u6b", title := "Task F", type := some "to-do", status := some "incomplete",
    start_date := some "not-a-date", deadline := none, today_index := some 1,
    project := none, project_title := none, heading := none, modification_date := none }

/-- Sample task whose project title matches a remote project up to case and
whitespace. -/
def w7task : ThingsTask :=
  { uuid := "u7", title := "Task G", type := some "to-do", status := some "incomplete",
    start_date := some "2025-06-10", deadline := none, today_index := none,
    project := some "prj-uuid", project_title := some " Groceries ", heading := none,
    modification_date := none }

/-- Sample task whose modification date equals its cached value. -/
def w8task : ThingsTask :=
  { uuid := "u8", title := "Task H", type := some "to-do", status := some "incomplete",
    start_date := some "2025-06-10", deadline := none, today_index := none,
    project := none, project_title := none, heading := none, modification_date := some "m8" }

/-- Cache holding `w8task`'s current modification date. -/
def w8cache : CacheMap := [("u8", { modification_date := some "m8", last_synced := "t0" })]

/-- Sample relevant to-do task not present in the cache. -/
def w10task : ThingsTask :=
  { uuid := "u10", title := "Task J", type := some "to-do", status := some "incomplete",
    start_date := some "2025-06-10", deadline := none, today_index := none,
    project := none, project_title := none, heading := none, modification_date := some "m10" }


/- Helper lemmas. -/

/-- A truthy date string always yields a date-portion. -/
theorem extract_date_part_isSome_of_truthy (o : Option String)
    (h : truthyOpt o = true) : (extract_date_part o).isSome = true := by
  cases o with
  | none => simp [truthyOpt] at h
  | some s =>
    simp [truthyOpt] at h
    simp only [extract_date_part]
    rw [if_neg h]
    split
    · simp
    · split <;> simp

/-- Only a truthy date string yields a date-portion. -/
theorem truthyOpt_of_extract_some (o : Option String) (x : String)
    (h : extract_date_part o = some x) : truthyOpt o = true := by
  cases o with
  | none => simp [extract_date_part] at h
  | some s =>
    simp only [extract_date_part] at h
    by_cases he : s = ""
    · rw [if_pos he] at h; exact absurd h (by simp)
    · simp [truthyOpt, he]

/-- The claim's date-portion rule coincides with `Option` equality. -/
theorem date_portion_matches_iff (l r : Option String) :
    date_portion_matches l r = true ↔ l = r := by
  cases l <;> cases r <;> simp [date_portion_matches]

/-- The cache filter only returns tasks from its input list. -/
theorem select_tasks_subset (nowIso : String) :
    ∀ (ts : List ThingsTask) (c : CacheMap) (t : ThingsTask),
    t ∈ (select_tasks_to_sync nowIso ts c).1 → t ∈ ts := by
  intro ts
  induction ts with
  | nil => intro c t h; simp [select_tasks_to_sync] at h
  | cons x xs ih =>
    intro c t h
    by_cases hs : cache_skip c x = true
    · simp only [select_tasks_to_sync, if_pos hs] at h
      exact List.mem_cons_of_mem _ (ih _ _ h)
    · simp only [select_tasks_to_sync, if_neg hs, List.mem_cons] at h
      rcases h with h | h
      · exact h ▸ List.mem_cons_self _ _
      · exact List.mem_cons_of_mem _ (ih _ _ h)

/-- Replacing the entry of another uuid leaves a lookup unchanged. -/
theorem find?_replace_ne (c : CacheMap) (u u' : String) (e : CacheEntry) (h : u' ≠ u) :
    List.find? (fun kv => kv.1 == u') (c.map (fun kv => if kv.1 == u then (u, e) else kv))
      = List.find? (fun kv => kv.1 == u') c := by
  induction c with
  | nil => rfl
  | cons kv c ih =>
    simp only [List.map_cons]
    by_cases hk : kv.1 = u
    · rw [if_pos (by simp [hk])]
      have h1 : (fun kv : String × CacheEntry => kv.1 == u') (u, e) = false := by
        simp [Ne.symm h]
      have h2 : (fun kv : String × CacheEntry => kv.1 == u') kv = false := by
        simp [hk, Ne.symm h]
      rw [@List.find?_cons_of_neg _ _ (u, e) _ (by simp [h1]),
          @List.find?_cons_of_neg _ _ kv _ (by simp [h2]), ih]
    · rw [if_neg (by simp [hk])]
      by_cases hp : (fun kv : String × CacheEntry => kv.1 == u') kv = true
      · rw [@List.find?_cons_of_pos _ _ kv _ hp, @List.find?_cons_of_pos _ _ kv _ hp]
      · rw [@List.find?_cons_of_neg _ _ kv _ hp, @List.find?_cons_of_neg _ _ kv _ hp, ih]

/-- Appending an entry for another uuid leaves a lookup unchanged. -/
theorem find?_append_single_ne (c : CacheMap) (u u' : String) (e : CacheEntry) (h : u' ≠ u) :
    List.find? (fun kv => kv.1 == u') (c ++ [(u, e)]) = List.find? (fun kv => kv.1 == u') c := by
  induction c with
  | nil =>
    rw [List.nil_append]
    rw [@List.find?_cons_of_neg _ _ (u, e) _ (by simp [Ne.symm h])]
  | cons kv c ih =>
    rw [List.cons_append]
    by_cases hp : (fun kv : String × CacheEntry => kv.1 == u') kv = true
    · rw [@List.find?_cons_of_pos _ _ kv _ hp, @List.find?_cons_of_pos _ _ kv _ hp]
    · rw [@List.find?_cons_of_neg _ _ kv _ hp, @List.find?_cons_of_neg _ _ kv _ hp, ih]

/-- `cacheUpsert` at another uuid does not change a lookup. -/
theorem cacheLookup_upsert_ne (c : CacheMap) (u : String) (e : CacheEntry)
    (u' : String) (h : u' ≠ u) :
    cacheLookup (cacheUpsert c u e) u' = cacheLookup c u' := by
  unfold cacheLookup cacheUpsert
  by_cases ha : (List.any c fun kv => kv.1 == u) = true
  · rw [if_pos ha, find?_replace_ne c u u' e h]
  · rw [if_neg ha, find?_append_single_ne c u u' e h]

/-- `cacheUpsert` at another uuid does not change the skip test. -/
theorem cache_skip_upsert_ne (c : CacheMap) (u : String) (e : CacheEntry)
    (t : ThingsTask) (h : t.uuid ≠ u) :
    cache_skip (cacheUpsert c u e) t = cache_skip c t := by
  unfold cache_skip
  rw [cacheLookup_upsert_ne c u e t.uuid h]

/-- Membership in the cache filter's output, for uuid-distinct inputs: a task
is selected iff its cached modification date is missing or different. -/
theorem select_mem_iff (nowIso : String) :
    ∀ (ts : List ThingsTask) (c : CacheMap),
    (ts.map (fun t => t.uuid)).Nodup →
    ∀ t, t ∈ ts →
    (t ∈ (select_tasks_to_sync nowIso ts c).1 ↔ cache_skip c t = false) := by
  intro ts
  induction ts with
  | nil => intro c _ t ht; simp at ht
  | cons x xs ih =>
    intro c hnd t ht
    rw [List.map_cons, List.nodup_cons] at hnd
    rcases List.mem_cons.mp ht with rfl | htx
    · by_cases hs : cache_skip c t = true
      · simp only [select_tasks_to_sync, if_pos hs]
        constructor
        · intro hmem
          exact absurd (List.mem_map_of_mem _ (select_tasks_subset nowIso xs c t hmem)) hnd.1
        · intro hf
          rw [hs] at hf
          exact absurd hf (by simp)
      · simp only [select_tasks_to_sync, if_neg hs]
        simp [List.mem_cons, Bool.eq_false_iff.mpr hs]
    · have hne : t.uuid ≠ x.uuid := by
        intro he
        exact hnd.1 (he ▸ List.mem_map_of_mem _ htx)
      by_cases hs : cache_skip c x = true
      · simp only [select_tasks_to_sync, if_pos hs]
        exact ih c hnd.2 t htx
      · simp only [select_tasks_to_sync, if_neg hs, List.mem_cons]
        have hskip_eq := cache_skip_upsert_ne c x.uuid ⟨x.modification_date, nowIso⟩ t hne
        have htne : t ≠ x := by
          intro he
          exact hne (he ▸ rfl)
        rw [← hskip_eq]
        constructor
        · intro hmem
          rcases hmem with hmem | hmem
          · exact absurd hmem htne
          · exact (ih _ hnd.2 t htx).mp hmem
        · intro hf
          exact Or.inr ((ih _ hnd.2 t htx).mpr hf)


/- Claim theorems. -/

/-- Claim C1: for an eligible task with an existing remote record, if the
target title equals the remote title, the mapped status equals the remote
status, the resolved project id equals the remote relation's single reference
(or both are absent), and the normalized local date-portion matches the
remote date-portion (absent-local with present-remote different, both-absent
equal), then reconciliation issues no update call; hence reconciling the same
unchanged task against the same remote snapshot again issues no update. -/
theorem claim_C1_no_update (today : PDate) (task : ThingsTask) (hl : HeadingLookup)
    (m : ProjectMap) (nid : String) (page : NotionPage)
    (ht : task.title = page.nameTitle.headD "")
    (hs : page.statusName = some (things_status_to_notion_status task.status))
    (hp : (task_properties_dict today task hl m nid (some page)).project_id = page.relationIds.head?)
    (hd : date_portion_matches (extract_date_part (get_task_display_date today task))
            (extract_date_part page.dateStart) = true) :
    (add_or_update_task_to_notion today task hl m nid (some page)).1 = SyncAction.skipped := by
  rw [date_portion_matches_iff] at hd
  have hdv : (task_properties_dict today task hl m nid (some page)).date_value
      = get_task_display_date today task := rfl
  have hdiff : properties_differ task page
      (task_properties_dict today task hl m nid (some page)).project_id
      (task_properties_dict today task hl m nid (some page)).date_value = false := by
    rw [hdv, hp]
    unfold properties_differ
    rw [if_neg (by simp [ht]), if_neg (by simp [hs])]
    rw [if_neg (by simp)]
    rw [← hd]
    simp
  simp [add_or_update_task_to_notion, hdiff]

/-- Claim C1 witness: a concrete matching task/page pair is skipped. -/
theorem claim_C1_witness :
    (add_or_update_task_to_notion ⟨2025, 6, 5⟩ w1task [] [] "new" (some w1page)).1
      = SyncAction.skipped :=
  claim_C1_no_update ⟨2025, 6, 5⟩ w1task [] [] "new" w1page
    (by decide) (by decide) (by decide) (by decide)

/-- Claim C2: when updating an existing remote record whose date value has
the same date-portion as the task's normalized local date, the `Date`
property is entirely absent from the computed update payload (remote
time-of-day is preserved). -/
theorem claim_C2_date_suppression (today : PDate) (task : ThingsTask)
    (hl : HeadingLookup) (m : ProjectMap) (nid : String) (page : NotionPage)
    (hed : truthyOpt page.dateStart = true)
    (heq : extract_date_part (get_task_display_date today task) = extract_date_part page.dateStart) :
    (task_properties_dict today task hl m nid (some page)).props.date = none := by
  have h1 : (extract_date_part page.dateStart).isSome = true :=
    extract_date_part_isSome_of_truthy _ hed
  obtain ⟨x, hx⟩ := Option.isSome_iff_exists.mp h1
  have hdv : truthyOpt (get_task_display_date today task) = true :=
    truthyOpt_of_extract_some _ x (heq.trans hx)
  simp [task_properties_dict, hdv, hed, heq]

/-- Claim C2 witness: a concrete update payload omits the date. -/
theorem claim_C2_witness :
    (task_properties_dict ⟨2025, 8, 1⟩ w2task [] [] "new" (some w2page)).props.date = none :=
  claim_C2_date_suppression ⟨2025, 8, 1⟩ w2task [] [] "new" w2page (by decide) (by decide)

/-- Claim C3: a task whose normalized display date is absent gets an explicit
clear-date instruction (`Date` present with a null value) in the computed
property set, not an omitted field. -/
theorem claim_C3_date_clear (today : PDate) (task : ThingsTask) (hl : HeadingLookup)
    (m : ProjectMap) (nid : String) (ep : Option NotionPage)
    (h : get_task_display_date today task = none) :
    (task_properties_dict today task hl m nid ep).props.date = some none := by
  simp [task_properties_dict, h, truthyOpt]

/-- Claim C3 witness: a concrete dateless task gets the explicit clear. -/
theorem claim_C3_witness :
    (task_properties_dict ⟨2025, 6, 5⟩ w3task [] [] "new" none).props.date = some none :=
  claim_C3_date_clear ⟨2025, 6, 5⟩ w3task [] [] "new" none (by decide)

/-- Claim C4: an incomplete task flagged for the Today view whose candidate
date-portion is strictly before the current local date is redated to the
current local date, and is returned unchanged otherwise. -/
theorem claim_C4_overdue_shift (today : PDate) (task : ThingsTask) (s : String) (dt : PDateTime)
    (hst : task.status = some "incomplete")
    (hti : task.today_index.isSome = true)
    (hc : task_candidate_date task = some s)
    (hp : parse_things_date (some s) = some dt) :
    get_task_display_date today task =
      (if dt.date.before today then some (formatYMD today) else some s) := by
  unfold get_task_display_date
  rw [hc]
  simp [hst, hti, hp]

/-- Claim C4 witness: a concrete overdue Today task is redated to today. -/
theorem claim_C4_witness :
    get_task_display_date ⟨2025, 6, 5⟩ w4task =
      (if (⟨⟨2025, 6, 4⟩, 0⟩ : PDateTime).date.before ⟨2025, 6, 5⟩ then
        some (formatYMD ⟨2025, 6, 5⟩) else some "2025-06-04") :=
  claim_C4_overdue_shift ⟨2025, 6, 5⟩ w4task "2025-06-04" ⟨⟨2025, 6, 4⟩, 0⟩
    (by decide) (by decide) (by decide) (by decide)

/-- Claim C5: a completed or canceled task's display date is always the
candidate date unchanged, regardless of the Today flag or how old it is. -/
theorem claim_C5_resolved_keep_date (today : PDate) (task : ThingsTask)
    (h : task.status = some "completed" ∨ task.status = some "canceled") :
    get_task_display_date today task = task_candidate_date task := by
  cases hc : task_candidate_date task with
  | none => simp [get_task_display_date, hc]
  | some s =>
    rcases h with h | h <;> simp [get_task_display_date, hc, h]

/-- Claim C5 witness: a concrete canceled Today task keeps its 2020 date. -/
theorem claim_C5_witness :
    get_task_display_date ⟨2025, 6, 5⟩ w5task = task_candidate_date w5task :=
  claim_C5_resolved_keep_date ⟨2025, 6, 5⟩ w5task (Or.inr (by decide))

/-- Claim C6 counterexample: a task whose candidate date string is
unparseable is NOT normalized to absent — `get_task_display_date` returns the
malformed string itself. -/
theorem claim_C6_counterexample :
    parse_things_date (some "someday") = none ∧
    get_task_display_date ⟨2025, 6, 5⟩
      { uuid := "u6", title := "X", type := some "to-do", status := some "incomplete",
        start_date := some "someday", deadline := none, today_index := some 0,
        project := none, project_title := none, heading := none,
        modification_date := none } = some "someday" := by
  constructor <;> decide

/-- Claim C6 (amended): a malformed candidate date string never raises; the
display date is the malformed candidate returned unchanged (the parse
failure only suppresses the overdue-today shift). -/
theorem claim_C6_amended (today : PDate) (task : ThingsTask) (s : String)
    (hc : task_candidate_date task = some s)
    (hp : parse_things_date (some s) = none) :
    get_task_display_date today task = some s := by
  simp only [get_task_display_date, hc]
  split
  · rfl
  · split
    · simp [hp]
    · rfl

/-- Claim C6 witness: a concrete malformed candidate is passed through. -/
theorem claim_C6_witness :
    get_task_display_date ⟨2025, 6, 5⟩ w6task = some "not-a-date" :=
  claim_C6_amended ⟨2025, 6, 5⟩ w6task "not-a-date" (by decide) (by decide)

/-- Claim C7: a task whose effective project name matches an existing
project-index key after trimming and case folding resolves to the existing
remote id with no create call, and an absent effective project name resolves
to absent with no remote call. -/
theorem claim_C7_project_resolution (task : ThingsTask) (hl : HeadingLookup)
    (m : ProjectMap) (nid : String) :
    (get_task_project task hl = none →
      get_or_create_project_id (get_task_project task hl) m nid = (none, false, m)) ∧
    (∀ s kv, get_task_project task hl = some s → s ≠ "" →
      List.find? (fun e => normProjectName s == normProjectName e.1) m = some kv →
      get_or_create_project_id (get_task_project task hl) m nid = (some kv.2, false, m)) := by
  constructor
  · intro h
    rw [h]
    rfl
  · intro s kv h hs hf
    rw [h]
    simp [get_or_create_project_id, hs, hf]

/-- Claim C7 witness: local " Groceries " resolves to remote "groceries"
without a create call. -/
theorem claim_C7_witness :
    get_or_create_project_id (get_task_project w7task []) [("groceries", "pid-1")] "new"
      = (some "pid-1", false, [("groceries", "pid-1")]) :=
  (claim_C7_project_resolution w7task [] [("groceries", "pid-1")] "new").2
    " Groceries " ("groceries", "pid-1") (by decide) (by decide) (by decide)

/-- Claim C8: whenever a run proceeds (any `force`), a considered task is
placed in `tasks_to_sync` iff its modification timestamp differs from, or is
absent from, the cached value under its uuid; `force` never bypasses this
cache filter. -/
theorem claim_C8_cache_filter (force : Bool) (env : GateEnv) (threshold : PDateTime)
    (nowIso : String) (all_tasks : List ThingsTask) (cache : CacheMap)
    (l : List ThingsTask) (t : ThingsTask)
    (hnd : (all_tasks.map (fun t => t.uuid)).Nodup)
    (hrun : sync_things_to_notion_selection force env threshold nowIso all_tasks cache = some l)
    (hmem : t ∈ all_tasks) (hrel : is_task_relevant threshold t = true)
    (htd : t.type = some "to-do") :
    (t ∈ l ↔ cache_skip cache t = false) := by
  unfold sync_things_to_notion_selection at hrun
  split at hrun
  · exact absurd hrun (by simp)
  · split at hrun
    · exact absurd hrun (by simp)
    · have hl : (select_tasks_to_sync nowIso
          (get_things_todos (filter_relevant_tasks threshold all_tasks)) cache).1 = l := by
        injection hrun
      have htmem : t ∈ get_things_todos (filter_relevant_tasks threshold all_tasks) := by
        unfold get_things_todos filter_relevant_tasks
        exact List.mem_filter.mpr ⟨List.mem_filter.mpr ⟨hmem, hrel⟩, by simp [htd]⟩
      have hndt : ((get_things_todos (filter_relevant_tasks threshold all_tasks)).map
          (fun t => t.uuid)).Nodup := by
        apply List.Nodup.sublist _ hnd
        apply List.Sublist.map
        exact (List.filter_sublist _).trans (List.filter_sublist _)
      rw [← hl]
      exact select_mem_iff nowIso _ cache hndt t htmem

/-- Claim C8 witness: with `force = true`, a cached unchanged task is still
excluded from the selected set. -/
theorem claim_C8_witness :
    (w8task ∈ ([] : List ThingsTask) ↔ cache_skip w8cache w8task = false) :=
  claim_C8_cache_filter true ⟨false, false, false⟩ ⟨⟨2025, 5, 29⟩, 0⟩ "now"
    [w8task] w8cache [] w8task (by decide) (by decide) (by decide) (by decide) (by decide)

/-- Claim C9: `force = true` makes the gate pass unconditionally, and with
`force = false` an inactive focus signal makes it fail regardless of any
other state. -/
theorem claim_C9_gate (env : GateEnv) :
    should_sync_based_on_focus true env = true ∧
    (env.notion_active = false → should_sync_based_on_focus false env = false) := by
  constructor
  · rfl
  · intro h
    simp [should_sync_based_on_focus, h]

/-- Claim C9 witness: inactive focus with `force = false` skips the run. -/
theorem claim_C9_witness :
    should_sync_based_on_focus false ⟨false, false, true⟩ = false :=
  (claim_C9_gate ⟨false, false, true⟩).2 rfl

/-- Claim C10: a task selected for reconciliation always has a `start_date`
or `deadline` that parses to a date-time no earlier than the seven-day
threshold; tasks with no parseable date in the window are excluded. -/
theorem claim_C10_relevance_window (force : Bool) (env : GateEnv) (threshold : PDateTime)
    (nowIso : String) (all_tasks : List ThingsTask) (cache : CacheMap)
    (l : List ThingsTask) (t : ThingsTask)
    (hrun : sync_things_to_notion_selection force env threshold nowIso all_tasks cache = some l)
    (hmem : t ∈ l) :
    (∃ dt, parse_things_date t.start_date = some dt ∧ threshold.le dt = true) ∨
    (∃ dt, parse_things_date t.deadline = some dt ∧ threshold.le dt = true) := by
  unfold sync_things_to_notion_selection at hrun
  split at hrun
  · exact absurd hrun (by simp)
  · split at hrun
    · exact absurd hrun (by simp)
    · have hl : (select_tasks_to_sync nowIso
          (get_things_todos (filter_relevant_tasks threshold all_tasks)) cache).1 = l := by
        injection hrun
      rw [← hl] at hmem
      have h1 := select_tasks_subset nowIso _ cache t hmem
      have h2 : t ∈ filter_relevant_tasks threshold all_tasks :=
        (List.mem_filter.mp h1).1
      have h3 : is_task_relevant threshold t = true := by
        have := (List.mem_filter.mp h2).2
        simpa using this
      unfold is_task_relevant at h3
      simp only [List.any_cons, List.any_nil, Bool.or_false, Bool.or_eq_true] at h3
      rcases h3 with h | h
      · rcases hp : parse_things_date t.start_date with _ | dt
        · rw [hp] at h
          simp at h
        · rw [hp] at h
          exact Or.inl ⟨dt, rfl, h⟩
      · rcases hp : parse_things_date t.deadline with _ | dt
        · rw [hp] at h
          simp at h
        · rw [hp] at h
          exact Or.inr ⟨dt, rfl, h⟩

/-- Claim C10 witness: a concrete in-window task selected by a run satisfies
the window property. -/
theorem claim_C10_witness :
    (∃ dt, parse_things_date w10task.start_date = some dt ∧
      PDateTime.le ⟨⟨2025, 5, 29⟩, 0⟩ dt = true) ∨
    (∃ dt, parse_things_date w10task.deadline = some dt ∧
      PDateTime.le ⟨⟨2025, 5, 29⟩, 0⟩ dt = true) :=
  claim_C10_relevance_window true ⟨false, false, false⟩ ⟨⟨2025, 5, 29⟩, 0⟩ "now"
    [w10task] [] [w10task] w10task (by decide) (by decide)
